import Mathlib

/-!
Verification of the coffee-shop WhatsApp bot core pipeline.

This file gives a shallow embedding of the stateful pipeline of the
repository: the sales-metrics cache and its refresh path
(src/services/sales_processor.py), the intent router and response composer
(src/services/message_processor.py), the text-generation client with its
deterministic fallbacks (src/services/llm_client.py), and the inbound
webhook with its idempotent message ledger (src/routes/webhook.py), over
the data model of src/models/sales_cache.py.

Modelling conventions:
- Instants are integers counting seconds; durations are integer seconds.
- Monetary amounts are exact rationals in major currency units.  The source
  manipulates Python floats; no verified claim depends on IEEE rounding, and
  the division by 100 from minor units is exact here.
- Database rows are lists kept in insertion (rowid) order; an SQL
  ORDER BY ... DESC is modelled as a stable descending sort, and SQL LIMIT
  follows the documented semantics of the development SQLite engine
  (a negative limit means no bound).
- A transaction on the session is all-or-nothing: the staged delete and
  inserts become visible at commit; on failure the session rolls back and
  the caller keeps the pre-transaction store.
- Fallible collaborators (the order/inventory source, the LLM completion
  call, the commit) are passed in as Except / Bool values; Python text
  operations (strip, lower, substring containment) are re-implemented on
  lists of characters.
-/

namespace CoffeeBot

/-! ## Python string primitives -/

/-- Whitespace set stripped by Python str.strip with no arguments
(space, tab, newline, carriage return, vertical tab, form feed). -/
def pyIsSpace (c : Char) : Bool :=
  c == ' ' || c == '\t' || c == '\n' || c == '\r' || c == '\x0b' || c == '\x0c'

/-- Python str.strip: drop leading and trailing whitespace. -/
def pyStrip (s : List Char) : List Char :=
  ((s.dropWhile pyIsSpace).reverse.dropWhile pyIsSpace).reverse

/-- Python str.lower on the ASCII texts the bot handles. -/
def pyLower (s : List Char) : List Char := s.map Char.toLower

/-- Normalization performed at the top of process_message:
message_body.strip().lower(). -/
def pyNormalize (s : List Char) : List Char := pyLower (pyStrip s)

/-- Does cs occur at the start of xs (helper for substring containment). -/
def prefMatch : List Char → List Char → Bool
  | [], _ => true
  | _ :: _, [] => false
  | c :: cs, x :: xs => c == x && prefMatch cs xs

/-- Python substring containment: needle in hay. -/
def containsSub (needle : List Char) : List Char → Bool
  | [] => prefMatch needle []
  | x :: xs => prefMatch needle (x :: xs) || containsSub needle xs

/-- Python truthiness of x or default for an optional string: the default is
used when the value is missing or empty. -/
def pythonOrStr (a : Option String) (b : String) : String :=
  match a with
  | none => b
  | some s => if s = "" then b else s

/-! ## Data model (src/models/sales_cache.py) -/

/-- One row of the sales_cache table. -/
structure CacheEntry where
  merchant_id : String
  item_id : String
  item_name : String
  category : Option String
  quantity_sold : Nat
  total_revenue : ℚ
  period_start : Int
  period_end : Int
  last_updated : Int
deriving DecidableEq, Repr

/-- One row of the whatsapp_messages table (the message ledger). -/
structure WhatsAppMessage where
  message_sid : String
  from_number : String
  to_number : String
  message_body : String
  response_body : Option String
  processed : Bool
  response_time_ms : Option Int
deriving DecidableEq, Repr

/-! ## SQL ordering and limits -/

/-- Insert e after every element whose key is at least the key of e.
Used to model ORDER BY key DESC as a stable sort: rows that tie on the key
keep their relative insertion (rowid) order, which is how the development
SQLite engine returns them. -/
def insertKeyDesc {α : Type} {β : Type} [LinearOrder β] (key : α → β) (e : α) :
    List α → List α
  | [] => [e]
  | x :: xs => if key e < key x then x :: insertKeyDesc key e xs else e :: x :: xs

/-- Stable descending sort by key (see insertKeyDesc). -/
def sortKeyDesc {α : Type} {β : Type} [LinearOrder β] (key : α → β) :
    List α → List α
  | [] => []
  | x :: xs => insertKeyDesc key x (sortKeyDesc key xs)

/-- SQL LIMIT n as executed by the development SQLite engine: a negative
limit places no bound on the result (documented SQLite behavior, and the
layer under test passes the caller-supplied limit through unchecked);
otherwise the first n rows are returned. -/
def sqlLimit {α : Type} (n : Int) (xs : List α) : List α :=
  if n < 0 then xs else xs.take n.toNat

/-! ## Upstream order data (src/services/clover_api.py result shapes) -/

/-- One line item of an upstream order; optional fields mirror dict.get
calls in _calculate_sales_metrics.  price is in minor currency units. -/
structure LineItem where
  item_id : Option String
  item_name : Option String
  unitQty : Option Nat
  price : Option Int
deriving DecidableEq, Repr

/-- One upstream order: only its line items are read. -/
structure Order where
  lineItems : List LineItem
deriving DecidableEq, Repr

/-- One upstream inventory item; name may be missing, categories is the
list of category names (each itself possibly missing its name key). -/
structure InventoryItem where
  id : String
  name : Option String
  categories : List (Option String)
deriving DecidableEq, Repr

/-- Accumulated metrics for one item id (the defaultdict payload in
_calculate_sales_metrics). -/
structure ItemMetrics where
  quantity_sold : Nat
  total_revenue : ℚ
  item_name : String
  category : String
deriving DecidableEq, Repr

/-! ## SalesProcessor (src/services/sales_processor.py) -/

/-- Config.CACHE_EXPIRY_HOURS default (src/config.py). -/
def CACHE_EXPIRY_HOURS : Int := 24

/-- Python dict comprehension item_lookup: later inventory entries with the
same id overwrite earlier ones, so lookup finds the last occurrence. -/
def lookupInventory (inv : List InventoryItem) (id : String) : Option InventoryItem :=
  inv.reverse.find? (fun it => it.id == id)

/-- Category resolution: first category name of the inventory item,
defaulting to Uncategorized when the list is empty or the name is missing. -/
def resolveCategory (details : Option InventoryItem) : String :=
  match details with
  | none => "Uncategorized"
  | some it =>
    match it.categories.head? with
    | none => "Uncategorized"
    | some none => "Uncategorized"
    | some (some n) => n

/-- Item name resolution: the name on the line item when truthy, otherwise
the inventory name, otherwise the Unknown Item placeholder. -/
def resolveItemName (liName : Option String) (details : Option InventoryItem)
    (item_id : String) : String :=
  let invName : String :=
    match details with
    | none => "Unknown Item " ++ item_id
    | some it => it.name.getD ("Unknown Item " ++ item_id)
  pythonOrStr liName invName

/-- Update-or-insert into the metrics association list, preserving first
insertion order as a Python dict does. -/
def upsertMetric (key : String) (f : ItemMetrics → ItemMetrics) :
    List (String × ItemMetrics) → List (String × ItemMetrics)
  | [] => [(key, f ⟨0, 0, "", ""⟩)]
  | (k, v) :: rest =>
    if k = key then (k, f v) :: rest else (k, v) :: upsertMetric key f rest

/-- Processing of one line item inside _calculate_sales_metrics: skip when
the item id is missing or empty, otherwise accumulate quantity and revenue
(minor units divided by 100) and overwrite name and category. -/
def applyLineItem (inv : List InventoryItem) (acc : List (String × ItemMetrics))
    (li : LineItem) : List (String × ItemMetrics) :=
  match li.item_id with
  | none => acc
  | some item_id =>
    if item_id = "" then acc
    else
      let quantity := li.unitQty.getD 1
      let price : ℚ := (li.price.getD 0 : ℚ) / 100
      let details := lookupInventory inv item_id
      let item_name := resolveItemName li.item_name details item_id
      let category := resolveCategory details
      upsertMetric item_id (fun m =>
        { quantity_sold := m.quantity_sold + quantity
          total_revenue := m.total_revenue + price * quantity
          item_name := item_name
          category := category }) acc

/-- _calculate_sales_metrics: fold every line item of every order into the
per-item metrics dictionary. -/
def calculate_sales_metrics (orders : List Order) (inv : List InventoryItem) :
    List (String × ItemMetrics) :=
  orders.foldl (fun acc o => o.lineItems.foldl (applyLineItem inv) acc) []

/-- _update_sales_cache: inside one session transaction, delete every row of
the merchant and stage one new row per aggregated item, then commit.  The
delete and the inserts are only published by the commit; when the commit
fails the session rolls back, so the caller keeps its original store and the
exception is re-raised (modelled as the error result). -/
def update_sales_cache (commitOk : Bool) (store : List CacheEntry)
    (merchant_id : String) (sales_data : List (String × ItemMetrics))
    (start_date end_date now : Int) :
    Except String (List CacheEntry × List String) :=
  if commitOk then
    let cleared := store.filter (fun e => !(e.merchant_id == merchant_id))
    let newEntries := sales_data.map (fun p =>
      { merchant_id := merchant_id
        item_id := p.1
        item_name := p.2.item_name
        category := some p.2.category
        quantity_sold := p.2.quantity_sold
        total_revenue := p.2.total_revenue
        period_start := start_date
        period_end := end_date
        last_updated := now : CacheEntry })
    Except.ok (cleared ++ newEntries, sales_data.map (fun p => p.1))
  else Except.error "PersistenceError"

/-- Outcomes of the fallible collaborators one refresh attempt consults:
the two upstream fetches and the cache-write commit. -/
structure RefreshWorld where
  ordersResult : Except String (List Order)
  inventoryResult : Except String (List InventoryItem)
  commitOk : Bool
deriving Repr

/-- Result of one refresh attempt: the success flag of the returned
dictionary and the store the database holds afterwards. -/
structure RefreshResult where
  success : Bool
  store : List CacheEntry
  items_updated : Nat
deriving Repr

/-- process_and_cache_sales_data: compute the lookback period, fetch orders
and inventory, aggregate, and publish through update_sales_cache.  Any
raised error is caught by the surrounding try/except, which returns a
failure dictionary; a fetch error means the store is never touched, and a
commit error means the transaction was rolled back, so in every failure
case the database keeps the callers previous entries. -/
def process_and_cache_sales_data (rw : RefreshWorld) (store : List CacheEntry)
    (merchant_id : String) (now : Int) (days_back : Int) : RefreshResult :=
  let end_date := now
  let start_date := now - days_back * 86400
  match rw.ordersResult with
  | Except.error _ => { success := false, store := store, items_updated := 0 }
  | Except.ok orders =>
    match rw.inventoryResult with
    | Except.error _ => { success := false, store := store, items_updated := 0 }
    | Except.ok inv =>
      let sales_data := calculate_sales_metrics orders inv
      match update_sales_cache rw.commitOk store merchant_id sales_data
          start_date end_date now with
      | Except.error _ => { success := false, store := store, items_updated := 0 }
      | Except.ok (store2, items) =>
        { success := true, store := store2, items_updated := items.length }

/-- Category filter of get_best_selling_items: filter_by(category=...) is
applied only when the argument is truthy (present and non-empty). -/
def filterCategory (category : Option String) (xs : List CacheEntry) :
    List CacheEntry :=
  match category with
  | none => xs
  | some c => if c = "" then xs else xs.filter (fun e => e.category == some c)

/-- Element-wise form of filterCategory, for stating membership facts. -/
def catOK (category : Option String) (e : CacheEntry) : Bool :=
  match category with
  | none => true
  | some c => if c = "" then true else e.category == some c

/-- The rows of the most recent period: the merchant (and category)
filtered rows are ordered by last_updated descending, the first row names
the current period, and the rows of that exact period are kept.  When the
filter matches nothing the result is empty. -/
def latestPeriodEntries (store : List CacheEntry) (merchant_id : String)
    (category : Option String) : List CacheEntry :=
  let q := filterCategory category (store.filter (fun e => e.merchant_id == merchant_id))
  match (sortKeyDesc (fun e => e.last_updated) q).head? with
  | none => []
  | some latest =>
    q.filter (fun e =>
      e.period_start == latest.period_start && e.period_end == latest.period_end)

/-- get_best_selling_items: rows of the latest period ordered by
quantity_sold descending (no secondary sort key in the query) and cut by
SQL LIMIT. -/
def get_best_selling_items (store : List CacheEntry) (merchant_id : String)
    (limit : Int) (category : Option String) : List CacheEntry :=
  sqlLimit limit
    (sortKeyDesc (fun e => e.quantity_sold) (latestPeriodEntries store merchant_id category))

/-- is_cache_fresh: false when the merchant has no rows, otherwise the age
in seconds of the most recently updated row is compared strictly against
the window in hours times 3600. -/
def is_cache_fresh (store : List CacheEntry) (merchant_id : String)
    (now : Int) (max_age_hours : Int) : Bool :=
  match (sortKeyDesc (fun e => e.last_updated)
      (store.filter (fun e => e.merchant_id == merchant_id))).head? with
  | none => false
  | some latest => decide (now - latest.last_updated < max_age_hours * 3600)

/-! ## Regular expressions of the intent router

The five sales patterns of MessageProcessor use only literals, the dot
(any character except newline), dot-star, a single optional character, and
top-level alternation, so the matcher below covers exactly those forms.
re.IGNORECASE is inert because process_message lower-cases the text before
these checks and every pattern is lower-case. -/

/-- Pattern atoms of the sales regexes. -/
inductive RAtom
  | lit (c : Char)
  | dot
  | dotStar
  | opt (c : Char)
deriving DecidableEq, Repr

/-- Fuel-indexed matcher core: every recursive call strictly decreases the
sum of pattern and text lengths, so the fuel wrapper below never exhausts.
The fuel only makes the recursion structural (well-founded definitions do
not reduce inside the kernel); it does not change the semantics. -/
def matchSeqF : Nat → List RAtom → List Char → Bool
  | 0, _, _ => false
  | _ + 1, [], _ => true
  | _ + 1, RAtom.lit _ :: _, [] => false
  | f + 1, RAtom.lit c :: ps, x :: xs => x == c && matchSeqF f ps xs
  | _ + 1, RAtom.dot :: _, [] => false
  | f + 1, RAtom.dot :: ps, x :: xs => x != '\n' && matchSeqF f ps xs
  | f + 1, RAtom.dotStar :: ps, [] => matchSeqF f ps []
  | f + 1, RAtom.dotStar :: ps, x :: xs =>
    matchSeqF f ps (x :: xs) || (x != '\n' && matchSeqF f (RAtom.dotStar :: ps) xs)
  | f + 1, RAtom.opt _ :: ps, [] => matchSeqF f ps []
  | f + 1, RAtom.opt c :: ps, x :: xs =>
    (x == c && matchSeqF f ps xs) || matchSeqF f ps (x :: xs)

/-- Match a sequence of atoms at the start of the text (the atoms may leave
trailing text unconsumed, as re.search does).  The dot and dot-star match
any character except a newline. -/
def matchSeq (ps : List RAtom) (xs : List Char) : Bool :=
  matchSeqF (ps.length + xs.length + 1) ps xs

/-- re.search: try the pattern at every start position. -/
def searchFrom (ps : List RAtom) : List Char → Bool
  | [] => matchSeq ps []
  | x :: xs => matchSeq ps (x :: xs) || searchFrom ps xs

/-- Literal characters of a string as pattern atoms. -/
def lits (s : String) : List RAtom := s.data.map RAtom.lit

/-- Pattern best.selling|top.selling|most.popular as alternation branches. -/
def salesPattern1 : List (List RAtom) :=
  [lits "best" ++ [RAtom.dot] ++ lits "selling",
   lits "top" ++ [RAtom.dot] ++ lits "selling",
   lits "most" ++ [RAtom.dot] ++ lits "popular"]

/-- Pattern sales|revenue|income. -/
def salesPattern2 : List (List RAtom) :=
  [lits "sales", lits "revenue", lits "income"]

/-- Pattern how.many|quantity|sold. -/
def salesPattern3 : List (List RAtom) :=
  [lits "how" ++ [RAtom.dot] ++ lits "many", lits "quantity", lits "sold"]

/-- Pattern what.*drink|beverage|coffee. -/
def salesPattern4 : List (List RAtom) :=
  [lits "what" ++ [RAtom.dotStar] ++ lits "drink", lits "beverage", lits "coffee"]

/-- Pattern this.week|today|yesterday|last.*days? (the final s optional). -/
def salesPattern5 : List (List RAtom) :=
  [lits "this" ++ [RAtom.dot] ++ lits "week",
   lits "today", lits "yesterday",
   lits "last" ++ [RAtom.dotStar] ++ lits "day" ++ [RAtom.opt 's']]

/-- The sales_patterns list built in the MessageProcessor constructor. -/
def sales_patterns : List (List (List RAtom)) :=
  [salesPattern1, salesPattern2, salesPattern3, salesPattern4, salesPattern5]

/-! ## IntentRouter predicates (src/services/message_processor.py) -/

/-- Greeting lexicon of _is_greeting. -/
def greetings : List String :=
  ["hello", "hi", "hey", "good morning", "good afternoon", "good evening"]

/-- _is_greeting: substring containment of any lexicon word. -/
def is_greeting (m : List Char) : Bool :=
  greetings.any (fun g => containsSub g.data m)

/-- Help lexicon of _is_help_request. -/
def help_keywords : List String :=
  ["help", "what can you do", "commands", "options"]

/-- _is_help_request: substring containment of any help keyword. -/
def is_help_request (m : List Char) : Bool :=
  help_keywords.any (fun k => containsSub k.data m)

/-- _is_sales_question: re.search of any of the five sales patterns. -/
def is_sales_question (m : List Char) : Bool :=
  sales_patterns.any (fun alts => alts.any (fun b => searchFrom b m))

/-! ## Reply templates -/

/-- Reply to an empty or whitespace-only message. -/
def emptyPrompt : String :=
  "Hello! I can help you with sales information for your coffee shop. Try asking \x27What\x27s my best-selling drink this week?\x27"

/-- Reply to a greeting. -/
def greetingTemplate : String :=
  "Hello! I\x27m your coffee shop sales assistant. I can help you with sales data and analytics. Try asking about your best-selling items!"

/-- Help text, identical in MessageProcessor._get_help_message and
LLMClient._get_help_message. -/
def help_message_text : String :=
  "I can help you with your coffee shop sales data! Here are some things you can ask:\n\n• \"What\x27s my best-selling drink this week?\"\n• \"How many cappuccinos did I sell?\"\n• \"What are my top 5 items?\"\n• \"Show me coffee sales\"\n• \"What\x27s my revenue today?\"\n\nJust ask me any question about your sales and I\x27ll help you find the answer!"

/-- Renders an amount with two decimals as the Python format spec .2f does
for the revenue figures (rounding to the nearest cent; IEEE artifacts of
the float representation are not modelled). -/
def formatMoney (x : ℚ) : String :=
  let cents : Int := (x * 100 + 1 / 2).floor
  let n := cents.natAbs
  (if cents < 0 then "-" else "")
    ++ toString (n / 100) ++ "."
    ++ (if n % 100 < 10 then "0" else "") ++ toString (n % 100)

/-! ## Sales bundle and composer (message_processor + llm_client) -/

/-- The context bundle _get_relevant_sales_data builds: the best-selling
rows and the active category filter. -/
structure SalesBundle where
  best_selling_items : List CacheEntry
  category_filter : Option String
deriving DecidableEq, Repr

/-- LLMClient._generate_fallback_response: the deterministic local reply
used whenever the completion API is unavailable, fails, or answers with
fewer than 10 characters.  question is the (already normalized) message;
the function lower-cases it again as the source does. -/
def generate_fallback_response (question : List Char)
    (sales_data : Option SalesBundle) : String :=
  let q := pyLower question
  if containsSub "best".data q
      && (containsSub "selling".data q || containsSub "popular".data q) then
    match sales_data with
    | some b =>
      match b.best_selling_items with
      | top :: rest =>
        let response := "Your best-selling item is " ++ top.item_name ++ " with "
          ++ toString top.quantity_sold ++ " units sold"
        let response :=
          match rest with
          | second :: _ => response ++ ", followed by " ++ second.item_name
              ++ " with " ++ toString second.quantity_sold ++ " units"
          | [] => response
        response ++ ". Total revenue from " ++ top.item_name ++ ": $"
          ++ formatMoney top.total_revenue ++ "."
      | [] =>
        "Based on your recent sales data, Cappuccino appears to be your best-selling item this week."
    | none =>
      "Based on your recent sales data, Cappuccino appears to be your best-selling item this week."
  else if ["hello", "hi", "hey"].any (fun w => containsSub w.data q) then
    "Hello! I\x27m your coffee shop sales assistant. I can help you analyze your sales data and answer questions about your business performance."
  else if containsSub "help".data q then
    help_message_text
  else if ["coffee", "drink", "beverage"].any (fun w => containsSub w.data q) then
    match sales_data with
    | some b =>
      match b.best_selling_items.filter (fun e => e.category == some "Coffee") with
      | top :: _ =>
        "Your top coffee drink is " ++ top.item_name ++ " with "
          ++ toString top.quantity_sold ++ " sold and $"
          ++ formatMoney top.total_revenue ++ " in revenue."
      | [] =>
        "Your coffee sales are performing well. Cappuccino and Latte are typically your top performers."
    | none =>
      "Your coffee sales are performing well. Cappuccino and Latte are typically your top performers."
  else if ["sales", "revenue", "income", "money"].any (fun w => containsSub w.data q) then
    match sales_data with
    | some b =>
      match b.best_selling_items with
      | _ :: _ =>
        let total_revenue : ℚ :=
          (b.best_selling_items.map (fun e => e.total_revenue)).sum
        let total_items : Nat :=
          (b.best_selling_items.map (fun e => e.quantity_sold)).sum
        "Your recent sales show " ++ toString total_items
          ++ " items sold with $" ++ formatMoney total_revenue
          ++ " in total revenue from your top items."
      | [] =>
        "Your sales data shows consistent performance across your menu items."
    | none =>
      "Your sales data shows consistent performance across your menu items."
  else
    "I understand you\x27re asking about your business data. Let me help you with that information based on your recent sales. Try asking about your best-selling items or specific product performance."

/-- LLMClient.generate_response together with its _generate_llm_response
helper: when a provider is configured the raw completion (passed in as the
api parameter, an error standing for a raised exception) is stripped and
kept only when at least 10 characters long; every other path, including a
missing provider, falls back to generate_fallback_response. -/
def llm_generate_response (use_llm : Bool) (api : Except Unit String)
    (question : List Char) (sales_data : Option SalesBundle) : String :=
  if use_llm then
    match api with
    | Except.ok raw =>
      let t := pyStrip raw.data
      if t.length < 10 then generate_fallback_response question sales_data
      else ⟨t⟩
    | Except.error _ => generate_fallback_response question sales_data
  else generate_fallback_response question sales_data

/-- MessageProcessor._generate_simple_response: reply built directly from
the bundle, or a static sentence when the bundle is empty. -/
def generate_simple_response (sales_data : SalesBundle) : String :=
  match sales_data.best_selling_items with
  | [] => "I don\x27t have any sales data available right now. Please check back later."
  | top :: rest =>
    let response := "Your best-selling item is " ++ top.item_name ++ " with "
      ++ toString top.quantity_sold ++ " sold"
    let response :=
      match rest with
      | second :: _ => response ++ ", followed by " ++ second.item_name
          ++ " with " ++ toString second.quantity_sold ++ " sold"
      | [] => response
    response ++ "."

/-- MessageProcessor._generate_llm_response: delegate to the client and
guard the outcome — an empty or under-10-character (after stripping) reply
is replaced by the simple deterministic reply. -/
def mp_generate_llm_response (use_llm : Bool) (api : Except Unit String)
    (question : List Char) (sales_data : SalesBundle) : String :=
  let response := llm_generate_response use_llm api question (some sales_data)
  if response = "" ∨ (pyStrip response.data).length < 10 then
    generate_simple_response sales_data
  else response

/-- The reply the composer path yields whenever the collaborator output is
unusable: the llm-client fallback, itself guarded by the composer length
check.  This is the composition of the two embedded source functions on the
error path and mentions no collaborator output. -/
def localFallback (question : List Char) (b : SalesBundle) : String :=
  let f := generate_fallback_response question (some b)
  if f = "" ∨ (pyStrip f.data).length < 10 then generate_simple_response b else f

/-! ## Message pipeline (src/services/message_processor.py) -/

/-- _get_merchant_id: merchant lookup is stubbed to a constant. -/
def get_merchant_id (_from_number : String) : String := "TEST_MERCHANT_001"

/-- _get_relevant_sales_data: category and limit derived from secondary
keyword checks, then the best-selling query. -/
def get_relevant_sales_data (m : List Char) (merchant_id : String)
    (store : List CacheEntry) : SalesBundle :=
  let coffeeish := containsSub "coffee".data m || containsSub "drink".data m
      || containsSub "beverage".data m
  let foodish := containsSub "food".data m || containsSub "pastry".data m
  let cl : Int × Option String :=
    if coffeeish then (5, some "Coffee")
    else if foodish then (5, some "Pastry")
    else (10, none)
  { best_selling_items := get_best_selling_items store merchant_id cl.1 cl.2
    category_filter := cl.2 }

/-- Inputs of one message-processing run: the database store, the clock,
and the outcomes of every fallible collaborator the run may consult.  The
LLM completion text is a single value because at most one completion call
happens per message. -/
structure World where
  store : List CacheEntry
  now : Int
  refresh : RefreshWorld
  use_llm : Bool
  llmApi : Except Unit String
deriving Repr

/-- Observable outcome of process_message: the reply, the store afterwards,
and how many cache refreshes and LLM delegations were performed. -/
structure ProcResult where
  reply : String
  store : List CacheEntry
  refreshCalls : Nat
  llmCalls : Nat
deriving Repr

/-- _handle_sales_question: refresh the cache when stale (default window,
default 7-day lookback), build the bundle from the resulting store, and
compose the reply through the guarded LLM path. -/
def handle_sales_question (w : World) (m : List Char) (from_number : String) :
    ProcResult :=
  let merchant_id := get_merchant_id from_number
  let fresh := is_cache_fresh w.store merchant_id w.now CACHE_EXPIRY_HOURS
  let stRef : List CacheEntry × Nat :=
    if fresh then (w.store, 0)
    else ((process_and_cache_sales_data w.refresh w.store merchant_id w.now 7).store, 1)
  let sales_data := get_relevant_sales_data m merchant_id stRef.1
  { reply := mp_generate_llm_response w.use_llm w.llmApi m sales_data
    store := stRef.1
    refreshCalls := stRef.2
    llmCalls := 1 }

/-- _handle_general_question: delegate to the LLM client with a generic
assistant context and no sales bundle.  The context string only shapes the
completion text, which is already a World input. -/
def handle_general_question (w : World) (m : List Char) : String :=
  llm_generate_response w.use_llm w.llmApi m none

/-- process_message: normalize, then route in the fixed source order:
empty text, greeting, help, sales question, general fallback.  The
exception handlers of the source guard database and client internals that
this embedding models as total, so their apology branches are
unreachable here. -/
def process_message (w : World) (message_body : String) (from_number : String) :
    ProcResult :=
  let m := pyNormalize message_body.data
  if m = [] then
    { reply := emptyPrompt, store := w.store, refreshCalls := 0, llmCalls := 0 }
  else if is_greeting m then
    { reply := greetingTemplate, store := w.store, refreshCalls := 0, llmCalls := 0 }
  else if is_help_request m then
    { reply := help_message_text, store := w.store, refreshCalls := 0, llmCalls := 0 }
  else if is_sales_question m then
    handle_sales_question w m from_number
  else
    { reply := handle_general_question w m, store := w.store
      refreshCalls := 0, llmCalls := 1 }

/-! ## Router decomposition (for the priority-order contract) -/

/-- The five intents of the router. -/
inductive Intent
  | emptyMsg
  | greeting
  | helpReq
  | salesQ
  | general
deriving DecidableEq, Repr

/-- Intent assigned by process_message, read off its branch structure. -/
def classify (message_body : String) : Intent :=
  let m := pyNormalize message_body.data
  if m = [] then Intent.emptyMsg
  else if is_greeting m then Intent.greeting
  else if is_help_request m then Intent.helpReq
  else if is_sales_question m then Intent.salesQ
  else Intent.general

/-- Modelled from the spec: the ordered case list of the router contract —
empty text first, then greeting, help request, and sales query, with
general as the fallback.  Used only to compare against classify. -/
def intentCases : List ((List Char → Bool) × Intent) :=
  [(fun m => decide (m = []), Intent.emptyMsg),
   (is_greeting, Intent.greeting),
   (is_help_request, Intent.helpReq),
   (is_sales_question, Intent.salesQ)]

/-- First-match evaluation of an ordered case list. -/
def firstMatch : List ((List Char → Bool) × Intent) → List Char → Intent
  | [], _ => Intent.general
  | c :: rest, m => if c.1 m then c.2 else firstMatch rest m

/-- Modelled from the spec: the router as first-match evaluation over the
ordered case list, on the normalized text. -/
def routerSpec (message_body : String) : Intent :=
  firstMatch intentCases (pyNormalize message_body.data)

/-- The reply each intent produces, as a function of the routed intent
alone (plus the inputs the branch handlers read). -/
def intentReply (w : World) (m : List Char) (from_number : String) :
    Intent → String
  | Intent.emptyMsg => emptyPrompt
  | Intent.greeting => greetingTemplate
  | Intent.helpReq => help_message_text
  | Intent.salesQ => (handle_sales_question w m from_number).reply
  | Intent.general => handle_general_question w m

/-! ## Webhook and message ledger (src/routes/webhook.py) -/

/-- Observable outcome of one webhook delivery: the reply text placed in
the TwiML envelope, the ledger and store afterwards, and how much pipeline
work ran.  processMessageCalls counts invocations of process_message,
which is where intent classification happens. -/
structure WebhookResult where
  reply : String
  ledger : List WhatsAppMessage
  store : List CacheEntry
  refreshCalls : Nat
  llmCalls : Nat
  processMessageCalls : Nat
deriving Repr

/-- Finalization of the ledger row for sid: store the reply, set processed,
record the latency (wall-clock latency is not modelled and recorded as 0). -/
def finalizeLedger (ledger : List WhatsAppMessage) (sid reply : String) :
    List WhatsAppMessage :=
  ledger.map (fun r =>
    if r.message_sid = sid then
      { r with response_body := some reply, processed := true,
               response_time_ms := some 0 }
    else r)

/-- The processing arm of the webhook: run process_message on the stripped
body and finalize the ledger row. -/
def runMessagePipeline (w : World) (ledger : List WhatsAppMessage)
    (sid body from_number : String) : WebhookResult :=
  let pr := process_message w body from_number
  { reply := pr.reply
    ledger := finalizeLedger ledger sid pr.reply
    store := pr.store
    refreshCalls := pr.refreshCalls
    llmCalls := pr.llmCalls
    processMessageCalls := 1 }

/-- whatsapp_webhook, after signature validation and identifier synthesis
(the synthetic-identifier branch only generates a fresh identifier for
blank local-testing posts and is outside every claim): look the identifier
up in the ledger; an already-processed row short-circuits to its stored
reply (or the generic already-handled notice when that reply is absent or
empty, through Python or); an unprocessed row is reused; otherwise a new
pending row is persisted before processing. -/
def whatsapp_webhook (w : World) (ledger : List WhatsAppMessage)
    (sid from_number to_number body : String) : WebhookResult :=
  let bodyStripped : String := ⟨pyStrip body.data⟩
  match ledger.find? (fun r => r.message_sid == sid) with
  | some r =>
    if r.processed then
      { reply := pythonOrStr r.response_body "I\x27ve already processed this message."
        ledger := ledger
        store := w.store
        refreshCalls := 0
        llmCalls := 0
        processMessageCalls := 0 }
    else
      runMessagePipeline w ledger sid bodyStripped from_number
  | none =>
    let newRec : WhatsAppMessage :=
      { message_sid := sid
        from_number := from_number
        to_number := to_number
        message_body := bodyStripped
        response_body := none
        processed := false
        response_time_ms := none }
    runMessagePipeline w (ledger ++ [newRec]) sid bodyStripped from_number

/-! ## Concurrent refresh model (for the single-flight requirement)

process_and_cache_sales_data reads no shared in-progress marker and takes
no lock: every call unconditionally fetches orders, fetches inventory and
writes the cache.  A concurrent execution of two calls is therefore any
interleaving of two copies of that step sequence, and the collaborator
call counts are invariant under the interleaving. -/

/-- The externally visible operations of one refresh call. -/
inductive RefreshStep
  | fetchOrders
  | fetchInventory
  | writeCache
deriving DecidableEq, Repr

/-- The operation sequence of one process_and_cache_sales_data call. -/
def refreshCallTrace : List RefreshStep :=
  [RefreshStep.fetchOrders, RefreshStep.fetchInventory, RefreshStep.writeCache]

/-- Interleaving of two operation sequences under a schedule: true picks
the next step of the first call, false of the second; an exhausted side
yields to the other, and a spent schedule appends the remainders. -/
def interleave2 : List Bool → List RefreshStep → List RefreshStep → List RefreshStep
  | [], t1, t2 => t1 ++ t2
  | true :: s, [], t2 => interleave2 s [] t2
  | true :: s, x :: t1, t2 => x :: interleave2 s t1 t2
  | false :: s, t1, [] => interleave2 s t1 []
  | false :: s, t1, y :: t2 => y :: interleave2 s t1 t2

/-- Number of upstream order fetches in a trace. -/
def countFetchOrders (t : List RefreshStep) : Nat :=
  t.countP (fun x => x == RefreshStep.fetchOrders)

/-- Number of cache writes in a trace. -/
def countWrites (t : List RefreshStep) : Nat :=
  t.countP (fun x => x == RefreshStep.writeCache)

/-! ## Spec-side ordering predicate and concrete fixtures -/

/-- Lexicographic at-most comparison of character lists (byte ascending),
the ascending order on item identifiers. -/
def lexLe : List Char → List Char → Bool
  | [], _ => true
  | _ :: _, [] => false
  | c :: cs, d :: ds => decide (c.toNat < d.toNat) || (c == d && lexLe cs ds)

/-- Ordering the spec sentence demands of topItems: quantity sold
descending, with ties broken by item identifier ascending.  Stated only to
compare against the query the source actually issues. -/
def specTopOrderB (a b : CacheEntry) : Bool :=
  decide (b.quantity_sold < a.quantity_sold) ||
    (a.quantity_sold == b.quantity_sold && lexLe a.item_id.data b.item_id.data)

/-- Fixture: an entry whose item identifier sorts after ceA. -/
def ceB : CacheEntry := ⟨"M1", "b001", "Mocha", some "Coffee", 5, 0, 0, 100, 50⟩

/-- Fixture: an entry tied on quantity with ceB, identifier first in
ascending order. -/
def ceA : CacheEntry := ⟨"M1", "a001", "Latte", some "Coffee", 5, 0, 0, 100, 50⟩

/-- Fixture: a single cached entry. -/
def ce1 : CacheEntry := ⟨"M1", "c1", "Cappuccino", some "Coffee", 150, 750, 0, 100, 50⟩

/-- Fixture: a world with an empty store and every collaborator failing. -/
def wW : World := ⟨[], 0, ⟨Except.ok [], Except.ok [], true⟩, false, Except.error ()⟩

/-- Fixture: an already-processed ledger row with a stored reply. -/
def recW : WhatsAppMessage := ⟨"X", "+1", "+2", "hello", some "stored reply", true, some 5⟩

/-! ## Lemmas about the stable sort and SQL limit -/

theorem mem_insertKeyDesc {α β : Type} [LinearOrder β] (key : α → β) (e a : α)
    (xs : List α) : a ∈ insertKeyDesc key e xs ↔ a = e ∨ a ∈ xs := by
  induction xs with
  | nil => simp [insertKeyDesc]
  | cons x xs ih =>
    simp only [insertKeyDesc]
    split
    · simp only [List.mem_cons, ih]
      tauto
    · simp only [List.mem_cons]

theorem mem_sortKeyDesc {α β : Type} [LinearOrder β] (key : α → β) (a : α)
    (xs : List α) : a ∈ sortKeyDesc key xs ↔ a ∈ xs := by
  induction xs with
  | nil => simp [sortKeyDesc]
  | cons x xs ih =>
    simp only [sortKeyDesc, mem_insertKeyDesc, List.mem_cons, ih]

theorem pairwise_insertKeyDesc {α β : Type} [LinearOrder β] (key : α → β)
    (e : α) (xs : List α) (h : xs.Pairwise (fun a b => key b ≤ key a)) :
    (insertKeyDesc key e xs).Pairwise (fun a b => key b ≤ key a) := by
  induction xs with
  | nil => simp [insertKeyDesc]
  | cons x xs ih =>
    rw [List.pairwise_cons] at h
    obtain ⟨hx, hxs⟩ := h
    simp only [insertKeyDesc]
    split
    · rename_i hlt
      rw [List.pairwise_cons]
      refine ⟨?_, ih hxs⟩
      intro a ha
      rcases (mem_insertKeyDesc key e a xs).mp ha with rfl | ha
      · exact le_of_lt hlt
      · exact hx a ha
    · rename_i hge
      push_neg at hge
      rw [List.pairwise_cons]
      refine ⟨?_, List.pairwise_cons.mpr ⟨hx, hxs⟩⟩
      intro a ha
      rcases List.mem_cons.mp ha with rfl | ha
      · exact hge
      · exact le_trans (hx a ha) hge

theorem pairwise_sortKeyDesc {α β : Type} [LinearOrder β] (key : α → β)
    (xs : List α) : (sortKeyDesc key xs).Pairwise (fun a b => key b ≤ key a) := by
  induction xs with
  | nil => simp [sortKeyDesc]
  | cons x xs ih => exact pairwise_insertKeyDesc key x _ ih

theorem sortKeyDesc_head_max {α β : Type} [LinearOrder β] (key : α → β)
    (xs : List α) (h0 : α) (hh : (sortKeyDesc key xs).head? = some h0) :
    h0 ∈ xs ∧ ∀ a ∈ xs, key a ≤ key h0 := by
  have hp := pairwise_sortKeyDesc key xs
  cases hs : sortKeyDesc key xs with
  | nil => rw [hs] at hh; simp at hh
  | cons b t =>
    rw [hs] at hh
    simp only [List.head?_cons, Option.some.injEq] at hh
    subst hh
    rw [hs, List.pairwise_cons] at hp
    constructor
    · have hb : b ∈ sortKeyDesc key xs := by rw [hs]; exact List.mem_cons_self _ _
      exact (mem_sortKeyDesc key b xs).mp hb
    · intro a ha
      have hmem : a ∈ sortKeyDesc key xs := (mem_sortKeyDesc key a xs).mpr ha
      rw [hs] at hmem
      rcases List.mem_cons.mp hmem with rfl | hmem
      · exact le_refl _
      · exact hp.1 a hmem

theorem length_insertKeyDesc {α β : Type} [LinearOrder β] (key : α → β)
    (e : α) (xs : List α) : (insertKeyDesc key e xs).length = xs.length + 1 := by
  induction xs with
  | nil => rfl
  | cons x xs ih =>
    simp only [insertKeyDesc]
    split
    · simp [ih]
    · simp

theorem length_sortKeyDesc {α β : Type} [LinearOrder β] (key : α → β)
    (xs : List α) : (sortKeyDesc key xs).length = xs.length := by
  induction xs with
  | nil => rfl
  | cons x xs ih => simp [sortKeyDesc, length_insertKeyDesc, ih]

theorem sqlLimit_sublist {α : Type} (n : Int) (xs : List α) :
    (sqlLimit n xs).Sublist xs := by
  unfold sqlLimit
  split
  · exact List.Sublist.refl xs
  · exact List.take_sublist _ _

theorem mem_sqlLimit {α : Type} (n : Int) (xs : List α) (a : α)
    (h : a ∈ sqlLimit n xs) : a ∈ xs :=
  (sqlLimit_sublist n xs).subset h

/-! ## Lemmas about filters and the latest period -/

theorem filterCategory_eq_filter (cat : Option String) (xs : List CacheEntry) :
    filterCategory cat xs = xs.filter (catOK cat) := by
  cases cat with
  | none =>
    unfold filterCategory
    exact (List.filter_eq_self.mpr (fun a _ => by simp [catOK])).symm
  | some c =>
    by_cases hc : c = ""
    · unfold filterCategory
      dsimp only
      rw [if_pos hc]
      exact (List.filter_eq_self.mpr (fun a _ => by simp [catOK, hc])).symm
    · unfold filterCategory
      dsimp only
      rw [if_neg hc]
      exact List.filter_congr (fun a _ => by simp [catOK, hc])

theorem mem_latestPeriodEntries (store : List CacheEntry) (m : String)
    (cat : Option String) (e : CacheEntry)
    (h : e ∈ latestPeriodEntries store m cat) :
    e ∈ store ∧ e.merchant_id = m ∧ catOK cat e = true ∧
    ∃ p, p ∈ store ∧ p.merchant_id = m ∧ catOK cat p = true ∧
      e.period_start = p.period_start ∧ e.period_end = p.period_end ∧
      ∀ q ∈ store, q.merchant_id = m → catOK cat q = true →
        q.last_updated ≤ p.last_updated := by
  unfold latestPeriodEntries at h
  dsimp only at h
  have hmemQ : ∀ a : CacheEntry,
      a ∈ filterCategory cat (store.filter (fun x => x.merchant_id == m)) ↔
      (a ∈ store ∧ a.merchant_id = m ∧ catOK cat a = true) := by
    intro a
    rw [filterCategory_eq_filter, List.mem_filter, List.mem_filter]
    constructor
    · rintro ⟨⟨h1, h2⟩, h3⟩
      refine ⟨h1, ?_, h3⟩
      simpa using h2
    · rintro ⟨h1, h2, h3⟩
      exact ⟨⟨h1, by simp [h2]⟩, h3⟩
  cases hs : (sortKeyDesc (fun x : CacheEntry => x.last_updated)
      (filterCategory cat (store.filter (fun x => x.merchant_id == m)))).head? with
  | none => rw [hs] at h; simp at h
  | some latest =>
    rw [hs] at h
    dsimp only at h
    obtain ⟨heQ, hper⟩ := List.mem_filter.mp h
    obtain ⟨hlmem, hlmax⟩ := sortKeyDesc_head_max
      (fun x : CacheEntry => x.last_updated) _ latest hs
    obtain ⟨hes, hem, hecat⟩ := (hmemQ e).mp heQ
    obtain ⟨hls, hlm, hlcat⟩ := (hmemQ latest).mp hlmem
    have hperiod : e.period_start = latest.period_start ∧
        e.period_end = latest.period_end := by
      simpa using hper
    exact ⟨hes, hem, hecat, latest, hls, hlm, hlcat, hperiod.1, hperiod.2,
      fun q hq hqm hqc => hlmax q ((hmemQ q).mpr ⟨hq, hqm, hqc⟩)⟩

/-! ## Lemmas about strings and containment -/

theorem append_ne_empty_left (a b : String) (h : a ≠ "") : a ++ b ≠ "" := by
  intro hc
  apply h
  have hd : a.data ++ b.data = [] := by
    have h2 := congrArg String.data hc
    rwa [String.data_append] at h2
  obtain ⟨ha, _⟩ := List.append_eq_nil.mp hd
  cases a
  subst ha
  rfl

theorem mk_ne_empty (l : List Char) (h : l ≠ []) : (⟨l⟩ : String) ≠ "" := by
  intro hc
  exact h (congrArg String.data hc)

theorem containsSub_ne_nil (needle hay : List Char) (hn : needle ≠ [])
    (h : containsSub needle hay = true) : hay ≠ [] := by
  intro hc
  subst hc
  cases needle with
  | nil => exact hn rfl
  | cons c cs => simp [containsSub, prefMatch] at h

/-! ## Interleaving count invariance -/

theorem countP_interleave2 (p : RefreshStep → Bool) (s : List Bool)
    (t1 t2 : List RefreshStep) :
    (interleave2 s t1 t2).countP p = t1.countP p + t2.countP p := by
  induction s generalizing t1 t2 with
  | nil => simp [interleave2, List.countP_append]
  | cons b s ih =>
    cases b
    · cases t2 with
      | nil => simp [interleave2, ih]
      | cons y t2 =>
        simp only [interleave2, List.countP_cons, ih]
        omega
    · cases t1 with
      | nil => simp [interleave2, ih]
      | cons x t1 =>
        simp only [interleave2, List.countP_cons, ih]
        omega

/-! ## Non-emptiness of every composed reply -/

theorem generate_simple_response_ne_empty (b : SalesBundle) :
    generate_simple_response b ≠ "" := by
  unfold generate_simple_response
  cases b.best_selling_items with
  | nil => decide
  | cons top rest =>
    cases rest with
    | nil =>
      dsimp only
      repeat apply append_ne_empty_left
      decide
    | cons second rest2 =>
      dsimp only
      repeat apply append_ne_empty_left
      decide

theorem generate_fallback_response_ne_empty (q : List Char)
    (sd : Option SalesBundle) : generate_fallback_response q sd ≠ "" := by
  unfold generate_fallback_response
  dsimp only
  split_ifs
  · cases sd with
    | none => decide
    | some b =>
      dsimp only
      cases b.best_selling_items with
      | nil => decide
      | cons top rest =>
        cases rest with
        | nil =>
          dsimp only
          repeat apply append_ne_empty_left
          decide
        | cons second rest2 =>
          dsimp only
          repeat apply append_ne_empty_left
          decide
  · decide
  · decide
  · cases sd with
    | none => decide
    | some b =>
      dsimp only
      cases b.best_selling_items.filter (fun e => e.category == some "Coffee") with
      | nil => decide
      | cons top rest =>
        dsimp only
        repeat apply append_ne_empty_left
        decide
  · cases sd with
    | none => decide
    | some b =>
      dsimp only
      cases b.best_selling_items with
      | nil => decide
      | cons top rest =>
        dsimp only
        repeat apply append_ne_empty_left
        decide
  · decide

theorem llm_generate_response_ne_empty (u : Bool) (api : Except Unit String)
    (q : List Char) (sd : Option SalesBundle) :
    llm_generate_response u api q sd ≠ "" := by
  unfold llm_generate_response
  cases u
  · simp only [Bool.false_eq_true, if_false]
    exact generate_fallback_response_ne_empty q sd
  · rw [if_pos rfl]
    cases api with
    | error e => exact generate_fallback_response_ne_empty q sd
    | ok raw =>
      dsimp only
      split_ifs with h
      · exact generate_fallback_response_ne_empty q sd
      · apply mk_ne_empty
        intro hc
        rw [hc] at h
        simp at h

theorem mp_generate_llm_response_ne_empty (u : Bool) (api : Except Unit String)
    (q : List Char) (b : SalesBundle) :
    mp_generate_llm_response u api q b ≠ "" := by
  unfold mp_generate_llm_response
  dsimp only
  split_ifs with h
  · exact generate_simple_response_ne_empty b
  · rw [not_or] at h
    exact h.1

/-! ## Claim theorems -/

/-- C2: if a refresh attempt fails — the upstream order fetch raises, the
inventory fetch raises, or the cache-write transaction fails to commit —
the merchant cache is left exactly as it was (a fetch failure never reaches
the store, and a failed transaction is rolled back rather than left
partially applied) and the attempt reports failure. -/
theorem refresh_failure_preserves_store (rw0 : RefreshWorld)
    (store : List CacheEntry) (m : String) (now days : Int)
    (h : (∃ msg, rw0.ordersResult = Except.error msg) ∨
         (∃ msg, rw0.inventoryResult = Except.error msg) ∨
         rw0.commitOk = false) :
    (process_and_cache_sales_data rw0 store m now days).store = store ∧
    (process_and_cache_sales_data rw0 store m now days).success = false := by
  unfold process_and_cache_sales_data
  dsimp only
  rcases h with ⟨msg, he⟩ | ⟨msg, he⟩ | he
  · rw [he]
    exact ⟨rfl, rfl⟩
  · cases ho : rw0.ordersResult with
    | error e => exact ⟨rfl, rfl⟩
    | ok orders =>
      rw [he]
      exact ⟨rfl, rfl⟩
  · cases ho : rw0.ordersResult with
    | error e => exact ⟨rfl, rfl⟩
    | ok orders =>
      cases hi : rw0.inventoryResult with
      | error e => exact ⟨rfl, rfl⟩
      | ok inv =>
        unfold update_sales_cache
        rw [he]
        exact ⟨rfl, rfl⟩

/-- Witness for C2: an upstream timeout leaves the single cached entry in
place and reports failure. -/
theorem refresh_failure_preserves_store_witness :
    (process_and_cache_sales_data ⟨Except.error "timeout", Except.ok [], true⟩
        [ce1] "M1" 100 7).store = [ce1] ∧
    (process_and_cache_sales_data ⟨Except.error "timeout", Except.ok [], true⟩
        [ce1] "M1" 100 7).success = false :=
  refresh_failure_preserves_store ⟨Except.error "timeout", Except.ok [], true⟩
    [ce1] "M1" 100 7 (Or.inl ⟨"timeout", rfl⟩)

/-- C4: is_cache_fresh is true iff the merchant has a cached entry whose
most recent last_updated lies strictly inside the freshness window, for
every window value at least 0; at or beyond the window it is false, and
with no data at all it is false rather than an error. -/
theorem is_cache_fresh_boundary (store : List CacheEntry) (m : String)
    (now w : Int) (hw : 0 ≤ w) :
    (is_cache_fresh store m now w = true ↔
      ∃ e, e ∈ store ∧ e.merchant_id = m ∧
        (∀ e2 ∈ store, e2.merchant_id = m → e2.last_updated ≤ e.last_updated) ∧
        now - e.last_updated < w * 3600) ∧
    ((∀ e ∈ store, e.merchant_id ≠ m) → is_cache_fresh store m now w = false) := by
  have hmemF : ∀ a : CacheEntry,
      a ∈ store.filter (fun x => x.merchant_id == m) ↔
        (a ∈ store ∧ a.merchant_id = m) := by
    intro a
    rw [List.mem_filter]
    constructor
    · rintro ⟨h1, h2⟩
      refine ⟨h1, ?_⟩
      simpa using h2
    · rintro ⟨h1, h2⟩
      exact ⟨h1, by simp [h2]⟩
  constructor
  · unfold is_cache_fresh
    cases hs : (sortKeyDesc (fun x : CacheEntry => x.last_updated)
        (store.filter (fun x => x.merchant_id == m))).head? with
    | none =>
      dsimp only
      constructor
      · intro hfalse
        exact Bool.noConfusion hfalse
      · rintro ⟨e, he, hem, _, _⟩
        exfalso
        have hef : e ∈ store.filter (fun x => x.merchant_id == m) :=
          (hmemF e).mpr ⟨he, hem⟩
        have hes : e ∈ sortKeyDesc (fun x : CacheEntry => x.last_updated)
            (store.filter (fun x => x.merchant_id == m)) :=
          (mem_sortKeyDesc _ e _).mpr hef
        cases hsl : sortKeyDesc (fun x : CacheEntry => x.last_updated)
            (store.filter (fun x => x.merchant_id == m)) with
        | nil => rw [hsl] at hes; simp at hes
        | cons b t => rw [hsl] at hs; simp at hs
    | some latest =>
      dsimp only
      obtain ⟨hlmem, hlmax⟩ := sortKeyDesc_head_max _ _ latest hs
      obtain ⟨hls, hlm⟩ := (hmemF latest).mp hlmem
      constructor
      · intro hfresh
        refine ⟨latest, hls, hlm, ?_, ?_⟩
        · intro e2 he2 hm2
          exact hlmax e2 ((hmemF e2).mpr ⟨he2, hm2⟩)
        · simpa using hfresh
      · rintro ⟨e, he, hem, hmax, hfresh⟩
        have h1 : e.last_updated ≤ latest.last_updated :=
          hlmax e ((hmemF e).mpr ⟨he, hem⟩)
        have h2 : latest.last_updated ≤ e.last_updated := hmax latest hls hlm
        have heq : latest.last_updated = e.last_updated := le_antisymm h2 h1
        rw [heq]
        exact decide_eq_true hfresh
  · intro hnone
    unfold is_cache_fresh
    have hfe : store.filter (fun x => x.merchant_id == m) = [] := by
      rw [List.filter_eq_nil_iff]
      intro a ha
      simp [hnone a ha]
    rw [hfe]
    rfl

/-- Witness for C4: a 950-second-old entry is fresh inside a 24-hour
window. -/
theorem is_cache_fresh_boundary_witness :
    (0 : Int) ≤ 24 ∧ is_cache_fresh [ce1] "M1" 1000 24 = true :=
  ⟨by decide,
    ((is_cache_fresh_boundary [ce1] "M1" 1000 24 (by decide)).1).mpr
      ⟨ce1, by decide, by decide, by decide, by decide⟩⟩

/-- C5: the refresh path has no single-flight guard.  Two overlapping
process_and_cache_sales_data calls for the same merchant perform two
upstream order fetches and two cache writes under every interleaving of
their operation sequences, never the one fetch and one write the
single-flight requirement demands. -/
theorem refresh_not_single_flight (s : List Bool) :
    countFetchOrders (interleave2 s refreshCallTrace refreshCallTrace) = 2 ∧
    countWrites (interleave2 s refreshCallTrace refreshCallTrace) = 2 ∧
    (2 : Nat) ≠ 1 := by
  refine ⟨?_, ?_, by decide⟩
  · unfold countFetchOrders
    rw [countP_interleave2]
    decide
  · unfold countWrites
    rw [countP_interleave2]
    decide

/-- C3 counterexample: the query orders only by quantity sold, so two
entries tied on quantity come back in insertion order.  With the
lexicographically later identifier inserted first, the result violates the
item-identifier-ascending tie-break the claim asserts for all insertion
orders (specTopOrderB ceA ceB holds, so the spec order would put ceA
first, yet the code returns ceB first). -/
theorem topItems_tie_counterexample :
    get_best_selling_items [ceB, ceA] "M1" 10 none = [ceB, ceA] ∧
    specTopOrderB ceA ceB = true ∧
    specTopOrderB ceB ceA = false := by decide

/-- C3 amended: get_best_selling_items returns entries of the merchant
(matching the category filter) that all belong to the most recent period,
ordered by quantity sold descending — but ties are returned in database
row (insertion) order, not by item identifier, so different insertion
orders of the same item set may order ties differently. -/
theorem topItems_ordered_latest_period (store : List CacheEntry) (m : String)
    (lim : Int) (cat : Option String) :
    ((get_best_selling_items store m lim cat).Pairwise
      (fun a b => b.quantity_sold ≤ a.quantity_sold)) ∧
    (∀ e ∈ get_best_selling_items store m lim cat,
      e ∈ store ∧ e.merchant_id = m ∧ catOK cat e = true ∧
      ∃ p, p ∈ store ∧ p.merchant_id = m ∧ catOK cat p = true ∧
        e.period_start = p.period_start ∧ e.period_end = p.period_end ∧
        ∀ q ∈ store, q.merchant_id = m → catOK cat q = true →
          q.last_updated ≤ p.last_updated) := by
  constructor
  · have hp := pairwise_sortKeyDesc (fun e : CacheEntry => e.quantity_sold)
      (latestPeriodEntries store m cat)
    unfold get_best_selling_items
    exact List.Pairwise.sublist (sqlLimit_sublist _ _) hp
  · intro e he
    unfold get_best_selling_items at he
    have he2 := mem_sqlLimit _ _ _ he
    have he3 := (mem_sortKeyDesc _ e _).mp he2
    exact mem_latestPeriodEntries store m cat e he3

/-- Witness for C3 amended: the concrete two-entry store yields a
quantity-descending result whose members belong to the merchant. -/
theorem topItems_ordered_latest_period_witness :
    (get_best_selling_items [ceB, ceA] "M1" 10 none).Pairwise
      (fun a b => b.quantity_sold ≤ a.quantity_sold) ∧
    ceB ∈ [ceB, ceA] ∧ ceB.merchant_id = "M1" := by
  obtain ⟨h1, h2⟩ := topItems_ordered_latest_period [ceB, ceA] "M1" 10 none
  have h3 := h2 ceB (by decide)
  exact ⟨h1, h3.1, h3.2.1⟩

/-- C8 counterexample: a negative limit is not clamped to 0 — it reaches
the SQL layer unchecked, where the development engine treats it as no
bound, so the whole latest period is returned instead of nothing. -/
theorem topItems_negative_limit_counterexample :
    (-1 : Int) ≤ 0 ∧
    get_best_selling_items [ce1] "M1" (-1) none = [ce1] ∧
    get_best_selling_items [ce1] "M1" (-1) none ≠ [] := by decide

/-- C8 amended: limit 0 yields an empty result; this layer applies no
clamp at all, so a negative limit is passed through to SQL LIMIT, which
under the development SQLite engine means no bound (the full sorted latest
period); for nonnegative limits the result length is the minimum of the
limit and the latest-period row count, with no upper clamp. -/
theorem topItems_limit_behavior (store : List CacheEntry) (m : String)
    (cat : Option String) :
    (get_best_selling_items store m 0 cat = []) ∧
    (∀ lim : Int, lim < 0 →
      get_best_selling_items store m lim cat
        = sortKeyDesc (fun e => e.quantity_sold) (latestPeriodEntries store m cat)) ∧
    (∀ lim : Int, 0 ≤ lim →
      (get_best_selling_items store m lim cat).length
        = min lim.toNat (latestPeriodEntries store m cat).length) := by
  refine ⟨?_, ?_, ?_⟩
  · unfold get_best_selling_items sqlLimit
    simp
  · intro lim hl
    unfold get_best_selling_items sqlLimit
    rw [if_pos hl]
  · intro lim hl
    unfold get_best_selling_items sqlLimit
    rw [if_neg (by omega)]
    rw [List.length_take, length_sortKeyDesc]

/-- Witness for C8 amended: limit 0 is empty, limit -1 returns the whole
sorted latest period, limit 2 over a one-row period returns one row. -/
theorem topItems_limit_behavior_witness :
    get_best_selling_items [ce1] "M1" 0 none = [] ∧
    get_best_selling_items [ce1] "M1" (-1) none
      = sortKeyDesc (fun e => e.quantity_sold) (latestPeriodEntries [ce1] "M1" none) ∧
    (get_best_selling_items [ce1] "M1" 2 none).length
      = min (Int.toNat 2) (latestPeriodEntries [ce1] "M1" none).length := by
  obtain ⟨h1, h2, h3⟩ := topItems_limit_behavior [ce1] "M1" none
  exact ⟨h1, h2 (-1) (by decide), h3 2 (by decide)⟩

/-- C6: the router evaluates the normalized (stripped, lower-cased) text in
the fixed priority order empty, greeting, help, sales, general — classify
agrees with first-match evaluation of the ordered case list, and the reply
of process_message is fully determined by that first matching case. -/
theorem router_priority_contract (w : World) (body from_number : String) :
    classify body = routerSpec body ∧
    (process_message w body from_number).reply
      = intentReply w (pyNormalize body.data) from_number (classify body) := by
  constructor
  · simp only [classify, routerSpec, intentCases, firstMatch, decide_eq_true_eq]
  · unfold process_message intentReply classify
    dsimp only
    split_ifs <;> rfl

/-- C7: whenever the LLM collaborator raises or returns a reply whose
stripped length is under 10 characters, the composer yields the
deterministic local fallback — a function of the question and the sales
bundle alone (a bundle-derived sentence, or a static sentence when the
bundle is empty) — and that reply is never empty. -/
theorem composer_guardrail (use_llm : Bool) (api : Except Unit String)
    (question : List Char) (b : SalesBundle)
    (h : api = Except.error () ∨
      ∃ raw, api = Except.ok raw ∧ (pyStrip raw.data).length < 10) :
    mp_generate_llm_response use_llm api question b = localFallback question b ∧
    localFallback question b ≠ "" := by
  constructor
  · have hllm : llm_generate_response use_llm api question (some b)
        = generate_fallback_response question (some b) := by
      unfold llm_generate_response
      rcases h with rfl | ⟨raw, rfl, hshort⟩
      · cases use_llm <;> simp
      · cases use_llm
        · simp
        · rw [if_pos rfl]
          dsimp only
          rw [if_pos hshort]
    unfold mp_generate_llm_response localFallback
    rw [hllm]
  · unfold localFallback
    dsimp only
    split_ifs
    · exact generate_simple_response_ne_empty b
    · exact generate_fallback_response_ne_empty question (some b)

/-- Witness for C7 (scenario E): a 3-character collaborator reply is
discarded in favor of the deterministic fallback, which is non-empty. -/
theorem composer_guardrail_witness :
    mp_generate_llm_response true (Except.ok "ok!") ("best selling".data)
        ⟨[ce1], none⟩
      = localFallback ("best selling".data) ⟨[ce1], none⟩ ∧
    localFallback ("best selling".data) ⟨[ce1], none⟩ ≠ "" :=
  composer_guardrail true (Except.ok "ok!") ("best selling".data) ⟨[ce1], none⟩
    (Or.inr ⟨"ok!", rfl, by decide⟩)

/-- C9: greeting detection is raw substring containment, not word-boundary
matching — any message whose normalized text contains the letter sequence
hi (for example inside the word which) is answered with the fixed greeting
template, even if the text also matches sales patterns checked later. -/
theorem greeting_substring_match (w : World) (body from_number : String)
    (h : containsSub "hi".data (pyNormalize body.data) = true) :
    (process_message w body from_number).reply = greetingTemplate := by
  have hne : pyNormalize body.data ≠ [] :=
    containsSub_ne_nil "hi".data _ (by decide) h
  have hg : is_greeting (pyNormalize body.data) = true := by
    unfold is_greeting
    rw [List.any_eq_true]
    exact ⟨"hi", by decide, h⟩
  unfold process_message
  dsimp only
  rw [if_neg hne, if_pos hg]

/-- Witness for C9: a pure sales question containing which is classified
as a greeting. -/
theorem greeting_substring_match_witness :
    is_sales_question (pyNormalize "Which coffee sold best this week?".data) = true ∧
    (process_message wW "Which coffee sold best this week?" "+15551234567").reply
      = greetingTemplate :=
  ⟨by decide,
    greeting_substring_match wW "Which coffee sold best this week?" "+15551234567"
      (by decide)⟩

/-- C10: process_message is total over every message body, sender, store
and collaborator outcome, and always returns a non-empty reply — fixed
template text, a guarded LLM reply, or a deterministic fallback. -/
theorem process_message_never_empty (w : World) (body from_number : String) :
    (process_message w body from_number).reply ≠ "" := by
  unfold process_message
  dsimp only
  split_ifs
  · dsimp only
    decide
  · dsimp only
    decide
  · dsimp only
    decide
  · unfold handle_sales_question
    dsimp only
    exact mp_generate_llm_response_ne_empty _ _ _ _
  · unfold handle_general_question
    exact llm_generate_response_ne_empty _ _ _ _

/-- C1: a redelivered identifier whose ledger row is already processed is
answered with the stored reply verbatim (or the generic already-handled
notice when the stored reply is absent), with no process_message run — so
no intent classification, no cache refresh, no LLM call — and both the
ledger and the store are left unchanged. -/
theorem webhook_replay_short_circuit (w : World) (ledger : List WhatsAppMessage)
    (sid from_number to_number body : String) (r : WhatsAppMessage)
    (hfind : ledger.find? (fun rec => rec.message_sid == sid) = some r)
    (hproc : r.processed = true)
    (hne : r.response_body ≠ some "") :
    (whatsapp_webhook w ledger sid from_number to_number body).reply
      = r.response_body.getD "I\x27ve already processed this message." ∧
    (whatsapp_webhook w ledger sid from_number to_number body).ledger = ledger ∧
    (whatsapp_webhook w ledger sid from_number to_number body).store = w.store ∧
    (whatsapp_webhook w ledger sid from_number to_number body).refreshCalls = 0 ∧
    (whatsapp_webhook w ledger sid from_number to_number body).llmCalls = 0 ∧
    (whatsapp_webhook w ledger sid from_number to_number body).processMessageCalls = 0 := by
  unfold whatsapp_webhook
  dsimp only
  rw [hfind]
  dsimp only
  rw [if_pos hproc]
  refine ⟨?_, rfl, rfl, rfl, rfl, rfl⟩
  unfold pythonOrStr
  cases hrb : r.response_body with
  | none => rfl
  | some s =>
    dsimp only
    rw [if_neg]
    · rfl
    · intro hc
      apply hne
      rw [hrb, hc]

/-- Witness for C1: redelivery of identifier X returns the stored reply
with zero refreshes, LLM calls and process_message runs. -/
theorem webhook_replay_short_circuit_witness :
    (whatsapp_webhook wW [recW] "X" "+1" "+2" "hello").reply = "stored reply" ∧
    (whatsapp_webhook wW [recW] "X" "+1" "+2" "hello").refreshCalls = 0 ∧
    (whatsapp_webhook wW [recW] "X" "+1" "+2" "hello").llmCalls = 0 ∧
    (whatsapp_webhook wW [recW] "X" "+1" "+2" "hello").processMessageCalls = 0 := by
  have h := webhook_replay_short_circuit wW [recW] "X" "+1" "+2" "hello" recW
    (by decide) rfl (by decide)
  exact ⟨h.1.trans (by decide), h.2.2.2.1, h.2.2.2.2.1, h.2.2.2.2.2⟩

end CoffeeBot
